import Mathlib

/-!
Shallow embedding of the fire-detection core of this repository
(src/fire_detection.py and src/fire_detection_advanced.py).

Image-library primitives (color conversion, optical flow, contour
extraction) are abstracted: a frame is represented by the quantities the
detector actually consumes from them — the candidate-mask pixel count,
the count of masked pixels whose flow magnitude exceeds the speed
threshold, and the list of contours, each contour abstracted by the five
scalar measurements the shape classifier reads (interior area, perimeter,
rotated-bounding-rectangle width and height, convex-hull area).
Floating-point arithmetic is idealized as exact rational arithmetic; the
float64 value of numpy's pi constant is kept exactly.

The two detector classes differ only in threshold constants and in their
shape classifiers, so `process_frame` is written once over a `Config`
record; `strictCfg` instantiates the constants of fire_detection.py's
FireDetector and `advancedCfg` those of fire_detection_advanced.py's.
-/

namespace FireDetection

/-- The exact rational value of the IEEE-754 double nearest pi, i.e. the
value of np.pi used by both shape classifiers. -/
def npPi : ℚ := 884279719003555 / 281474976710656

/-- A contour abstracted by the five measurements the shape classifiers
read from it: cv2.contourArea(contour), cv2.arcLength(contour, True),
the two sides rect[1][0] and rect[1][1] of cv2.minAreaRect(contour), and
cv2.contourArea(cv2.convexHull(contour)). -/
structure Contour where
  area : ℚ
  perimeter : ℚ
  rectW : ℚ
  rectH : ℚ
  hullArea : ℚ
  deriving DecidableEq

/-- circularity = (4 * np.pi * area) / (perimeter * perimeter). -/
def circularity (c : Contour) : ℚ := 4 * npPi * c.area / (c.perimeter * c.perimeter)

/-- aspect_ratio = rect[1][1] / rect[1][0]. -/
def aspect_ratio (c : Contour) : ℚ := c.rectH / c.rectW

/-- solidity = area / hull_area. -/
def solidity (c : Contour) : ℚ := c.area / c.hullArea

/-- FireDetector.is_fire_like_shape of src/fire_detection.py, with that
class's constants: min_fire_area 800, max_fire_area 80000, circularity
rejected above 0.7 and below 0.25, aspect ratio rejected above 1.8 and
below 0.6, solidity rejected above 0.85 and below 0.4; each guard is an
early `return False` in the source. -/
def is_fire_like_shape (c : Contour) : Bool :=
  if c.area < 800 ∨ c.area > 80000 then false
  else if c.perimeter = 0 then false
  else if circularity c > 7/10 then false
  else if circularity c < 1/4 then false
  else if c.rectW = 0 then false
  else if aspect_ratio c > 9/5 ∨ aspect_ratio c < 3/5 then false
  else if c.hullArea = 0 then false
  else if solidity c > 17/20 then false
  else if solidity c < 2/5 then false
  else true

namespace Advanced

/-- FireDetector.is_fire_like_shape of src/fire_detection_advanced.py:
min_fire_area 500, max_fire_area 100000, circularity rejected above 0.8
(no lower circularity bound), aspect ratio rejected above 3 and below
0.3; there is no solidity gate in this file. -/
def is_fire_like_shape (c : Contour) : Bool :=
  if c.area < 500 ∨ c.area > 100000 then false
  else if c.perimeter = 0 then false
  else if circularity c > 4/5 then false
  else if c.rectW = 0 then false
  else if aspect_ratio c > 3 ∨ aspect_ratio c < 3/10 then false
  else true

end Advanced

/-- The four geometric gates of the strict classifier, stated as one
conjunction (area band, circularity band with its degenerate-perimeter
guard, aspect-ratio band with its zero-width guard, solidity band with
its zero-hull guard). -/
def strictGates (c : Contour) : Prop :=
  (800 ≤ c.area ∧ c.area ≤ 80000) ∧
  (c.perimeter ≠ 0 ∧ 1/4 ≤ circularity c ∧ circularity c ≤ 7/10) ∧
  (c.rectW ≠ 0 ∧ 3/5 ≤ aspect_ratio c ∧ aspect_ratio c ≤ 9/5) ∧
  (c.hullArea ≠ 0 ∧ 2/5 ≤ solidity c ∧ solidity c ≤ 17/20)

/-- The gates the permissive classifier of fire_detection_advanced.py
actually applies: area band, upper circularity bound only (with the
degenerate-perimeter guard), aspect-ratio band (with the zero-width
guard); no lower circularity bound and no solidity gate. -/
def advancedGates (c : Contour) : Prop :=
  (500 ≤ c.area ∧ c.area ≤ 100000) ∧
  (c.perimeter ≠ 0 ∧ circularity c ≤ 4/5) ∧
  (c.rectW ≠ 0 ∧ 3/10 ≤ aspect_ratio c ∧ aspect_ratio c ≤ 3)

/-- The per-instance constants read by process_frame and the shape
classifier it dispatches to.  Both detector classes share the same
process_frame body up to these constants. -/
structure Config where
  min_motion_threshold : ℚ
  required_detections : Int
  min_flicker_variance : ℚ
  shapeOk : Contour → Bool

/-- Constants of src/fire_detection.py's FireDetector.__init__. -/
def strictCfg : Config :=
  { min_motion_threshold := 9/20
    required_detections := 5
    min_flicker_variance := 2/25
    shapeOk := is_fire_like_shape }

/-- Constants of src/fire_detection_advanced.py's FireDetector.__init__. -/
def advancedCfg : Config :=
  { min_motion_threshold := 3/20
    required_detections := 3
    min_flicker_variance := 1/50
    shapeOk := Advanced.is_fire_like_shape }

/-- The cross-frame mutable fields of a detector instance: prev_gray
(the retained previous grayscale frame, abstractly identified by a
natural number), flicker_history (the deque of maxlen 10), and
consecutive_frames. -/
structure DetectorState where
  prev_gray : Option Nat
  flicker_history : List ℚ
  consecutive_frames : Int
  deriving DecidableEq

/-- The fields as set by FireDetector.__init__: prev_gray None,
flicker_history empty, consecutive_frames 0. -/
def initState : DetectorState :=
  { prev_gray := none, flicker_history := [], consecutive_frames := 0 }

/-- One input frame, abstracted by the quantities the detector consumes:
its dimensions, its grayscale content (abstract identifier), the
candidate mask's non-zero pixel count (cv2.countNonZero(fire_mask)),
the count of masked pixels with flow magnitude above 2.0
(np.sum(masked_magnitude > 2.0), meaningful when a previous frame is
retained), and the contours found in the mask. -/
structure FrameData where
  width : Nat
  height : Nat
  gray : Nat
  maskArea : ℚ
  motionPixels : ℚ
  contours : List Contour

/-- FireDetector.detect_motion: on the first call (prev_gray None)
return 0.0 and retain the frame; otherwise the ratio is 0.0 when the
mask has no pixels, else motion_pixels / fire_pixels; in every case the
retained previous grayscale frame becomes the current one. -/
def detect_motion (s : DetectorState) (gray_frame : Nat)
    (fire_pixels motion_pixels : ℚ) : ℚ × DetectorState :=
  (match s.prev_gray with
   | none => 0
   | some _ => if fire_pixels = 0 then 0 else motion_pixels / fire_pixels,
   { s with prev_gray := some gray_frame })

/-- collections.deque(maxlen = cap) append: the oldest element is
evicted from the front once the capacity is exceeded. -/
def dequeAppend (cap : Nat) (xs : List ℚ) (x : ℚ) : List ℚ :=
  let ys := xs ++ [x]
  if cap < ys.length then ys.drop (ys.length - cap) else ys

/-- np.mean (0 on the empty list, which the detector never hits). -/
def npMean (xs : List ℚ) : ℚ := xs.sum / (xs.length : ℚ)

/-- np.var with the default ddof of 0 (population variance). -/
def npVar (xs : List ℚ) : ℚ :=
  (xs.map (fun x => (x - npMean xs) * (x - npMean xs))).sum / (xs.length : ℚ)

/-- FireDetector.detect_flicker: append the current fire area to the
history deque; report False until the deque holds 5 samples, thereafter
report whether variance / (mean + 1) exceeds min_flicker_variance. -/
def detect_flicker (min_flicker_variance : ℚ) (s : DetectorState)
    (fire_area : ℚ) : Bool × DetectorState :=
  let hist := dequeAppend 10 s.flicker_history fire_area
  (if hist.length < 5 then false
   else decide (npVar hist / (npMean hist + 1) > min_flicker_variance),
   { s with flicker_history := hist })

/-- The values process_frame returns to the caller (the annotated frame
copy is pure rendering and is omitted; valid_contours stands for the
boxes drawn on it). -/
structure ProcessResult where
  fire_status : Bool
  confidence : ℚ
  motion_ratio : ℚ
  has_flicker : Bool
  detections : List Contour

/-- FireDetector.process_frame on well-formed input (fixed dimensions
across calls, non-empty frame), where the cv2 primitives are total:
color mask and contours (abstracted into FrameData), motion ratio,
per-contour shape classification, flicker, then the vote `shape AND
motion_ratio > min_motion_threshold AND flicker`; the vote increments
consecutive_frames, its absence decays it with a floor at 0;
fire_status compares the updated counter against required_detections
and confidence is min(100, counter/required*100).  The behavior on
malformed input, where the cv2 primitives raise, is modelled separately
by the Fallible namespace below. -/
def process_frame (cfg : Config) (s : DetectorState) (f : FrameData) :
    ProcessResult × DetectorState :=
  let m := detect_motion s f.gray f.maskArea f.motionPixels
  let motion_ratio := m.1
  let s1 := m.2
  let valid_contours := f.contours.filter cfg.shapeOk
  let fire_detected_this_frame := f.contours.any cfg.shapeOk
  let fl := detect_flicker cfg.min_flicker_variance s1 f.maskArea
  let has_flicker := fl.1
  let s2 := fl.2
  let cv :=
    if fire_detected_this_frame
        && decide (motion_ratio > cfg.min_motion_threshold)
        && has_flicker
    then s2.consecutive_frames + 1
    else max 0 (s2.consecutive_frames - 1)
  let s3 := { s2 with consecutive_frames := cv }
  ({ fire_status := decide (cfg.required_detections ≤ cv)
     confidence := min 100 ((cv : ℚ) / (cfg.required_detections : ℚ) * 100)
     motion_ratio := motion_ratio
     has_flicker := has_flicker
     detections := valid_contours },
   s3)

/-- Running a detector over a frame sequence from a fresh instance. -/
def runDetector (cfg : Config) (fs : List FrameData) : DetectorState :=
  fs.foldl (fun s f => (process_frame cfg s f).2) initState

/-- confidence as a function of the counter:
min(100, (consecutive_frames / required_detections) * 100). -/
def confidenceOf (req cv : Int) : ℚ := min 100 ((cv : ℚ) / (req : ℚ) * 100)

/-! ### Pixel-level model of detect_fire_color's mask algebra -/

/-- One pixel of the HSV-converted frame. -/
structure HSVPixel where
  h : ℕ
  s : ℕ
  v : ℕ

/-- cv2.inRange on one pixel: all three channels within bounds. -/
def inRangePx (lo hi : HSVPixel) (p : HSVPixel) : Bool :=
  decide (lo.h ≤ p.h) && decide (p.h ≤ hi.h) &&
  decide (lo.s ≤ p.s) && decide (p.s ≤ hi.s) &&
  decide (lo.v ≤ p.v) && decide (p.v ≤ hi.v)

/-- cv2.inRange over a frame, a frame being its pixel list. -/
def inRangeMask (lo hi : HSVPixel) (frame : List HSVPixel) : List Bool :=
  frame.map (inRangePx lo hi)

/-- cv2.bitwise_or on 0/255 masks, modelled over Bool. -/
def bitwise_or (a b : List Bool) : List Bool := List.zipWith Bool.or a b

/-- cv2.bitwise_and on 0/255 masks, modelled over Bool. -/
def bitwise_and (a b : List Bool) : List Bool := List.zipWith Bool.and a b

/-- cv2.bitwise_not on a 0/255 mask, modelled over Bool. -/
def bitwise_not (a : List Bool) : List Bool := a.map Bool.not

/-- One subtraction step of detect_fire_color:
fire_mask = cv2.bitwise_and(fire_mask, cv2.bitwise_not(excl)). -/
def subtractMask (m excl : List Bool) : List Bool :=
  bitwise_and m (bitwise_not excl)

/-- The union of the two fire hue bands of fire_detection.py
([0,140,150]-[15,255,255] and [175,140,150]-[180,255,255]). -/
def fire_candidate (hsv : List HSVPixel) : List Bool :=
  bitwise_or (inRangeMask ⟨0, 140, 150⟩ ⟨15, 255, 255⟩ hsv)
             (inRangeMask ⟨175, 140, 150⟩ ⟨180, 255, 255⟩ hsv)

/-- The skin exclusion mask ([0,10,60]-[25,110,200]). -/
def skin_mask (hsv : List HSVPixel) : List Bool :=
  inRangeMask ⟨0, 10, 60⟩ ⟨25, 110, 200⟩ hsv

/-- The tomato-red exclusion mask (union of its two hue bands). -/
def tomato_mask (hsv : List HSVPixel) : List Bool :=
  bitwise_or (inRangeMask ⟨0, 60, 80⟩ ⟨25, 140, 150⟩ hsv)
             (inRangeMask ⟨170, 60, 80⟩ ⟨180, 140, 150⟩ hsv)

/-- The cloth-red exclusion mask (union of its two hue bands). -/
def cloth_mask (hsv : List HSVPixel) : List Bool :=
  bitwise_or (inRangeMask ⟨0, 50, 50⟩ ⟨25, 110, 180⟩ hsv)
             (inRangeMask ⟨170, 50, 50⟩ ⟨180, 110, 180⟩ hsv)

/-- detect_fire_color of fire_detection.py up to (not including) the
morphological open/close passes, which follow all three subtractions:
candidate mask minus skin, minus tomato, minus cloth, in source order. -/
def detect_fire_color_premorph (hsv : List HSVPixel) : List Bool :=
  subtractMask (subtractMask (subtractMask (fire_candidate hsv) (skin_mask hsv))
      (tomato_mask hsv))
    (cloth_mask hsv)

/-! ### Top-level execution model of src/fire_detection_advanced.py -/

/-- A top-level statement of the module, as Python executes it on
import: a module import, a class definition (whose base-class names are
evaluated at that point), or a function definition. -/
inductive PyStmt where
  | pyImport (m : String)
  | classDef (n : String) (bases : List String)
  | defFun (n : String)

/-- The failures the module's top level can raise: a failed module
import, or an unresolved name (NameError). -/
inductive PyError where
  | moduleNotFound (m : String)
  | nameError (n : String)
  deriving DecidableEq

/-- First base-class name not bound in the environment, if any. -/
def firstMissing (env : List String) : List String → Option String
  | [] => none
  | b :: bs => if env.contains b then firstMissing env bs else some b

/-- Execute one top-level statement: an import succeeds iff the module
is available in the environment; a class definition requires every base
name to be already bound, else it raises NameError on the first unbound
base; a def always binds its name. -/
def execStmt (canImport : String → Bool) (env : List String) :
    PyStmt → Except PyError (List String)
  | PyStmt.pyImport m =>
      if canImport m then Except.ok (m :: env) else Except.error (PyError.moduleNotFound m)
  | PyStmt.classDef n bases =>
      match firstMissing env bases with
      | some b => Except.error (PyError.nameError b)
      | none => Except.ok (n :: env)
  | PyStmt.defFun n => Except.ok (n :: env)

/-- Execute statements in order, stopping at the first failure. -/
def runModule (canImport : String → Bool) :
    List PyStmt → List String → Except PyError (List String)
  | [], env => Except.ok env
  | st :: sts, env =>
      match execStmt canImport env st with
      | Except.ok env2 => runModule canImport sts env2
      | Except.error e => Except.error e

/-- The top-level statements of src/fire_detection_advanced.py in source
order: six imports, then `class FireDetectorWithAlert(FireDetector)` at
line 14, then `class FireDetector` at line 35, then `def main`. -/
def advancedModuleStmts : List PyStmt :=
  [PyStmt.pyImport "cv2",
   PyStmt.pyImport "numpy",
   PyStmt.pyImport "collections",
   PyStmt.pyImport "time",
   PyStmt.pyImport "datetime",
   PyStmt.pyImport "winsound",
   PyStmt.classDef "FireDetectorWithAlert" ["FireDetector"],
   PyStmt.classDef "FireDetector" [],
   PyStmt.defFun "main"]

/-- Importing src/fire_detection_advanced.py: run its top level in an
empty environment. -/
def loadAdvancedModule (canImport : String → Bool) : Except PyError (List String) :=
  runModule canImport advancedModuleStmts []

/-! ### Concrete data used by counterexamples and witnesses -/

/-- A contour every strict gate accepts: area 1000, perimeter 160
(circularity 5*pi/32, about 0.49), rotated rectangle 30 by 32 (aspect
16/15), hull area 1600 (solidity 0.625). -/
def cGood : Contour :=
  { area := 1000, perimeter := 160, rectW := 30, rectH := 32, hullArea := 1600 }

/-- A fully convex contour: area 1000, perimeter 200 (circularity
pi/10, about 0.31), rotated rectangle 30 by 35, hull area 1000, hence
solidity exactly 1. -/
def cBad : Contour :=
  { area := 1000, perimeter := 200, rectW := 30, rectH := 35, hullArea := 1000 }

/-- A zero-sized (0 by 0) frame, with no mask signal and no contours. -/
def emptyFrame : FrameData :=
  { width := 0, height := 0, gray := 0, maskArea := 0, motionPixels := 0, contours := [] }

/-- A well-formed 640 by 480 frame. -/
def frameA : FrameData :=
  { width := 640, height := 480, gray := 1, maskArea := 50, motionPixels := 10, contours := [] }

/-- A 320 by 240 frame, mismatching frameA's dimensions. -/
def frameB : FrameData :=
  { width := 320, height := 240, gray := 2, maskArea := 50, motionPixels := 10, contours := [] }

/-- Frame i of the scenario driving the counter past its threshold: an
accepted contour every frame, full motion in the mask, and mask area
alternating between 100 and 200 so the flicker variance stays high. -/
def mkFrame (i : Nat) : FrameData :=
  { width := 640, height := 480, gray := i
    maskArea := if i % 2 = 0 then 200 else 100
    motionPixels := if i % 2 = 0 then 200 else 100
    contours := [cGood] }

/-- Ten such frames. -/
def framesC3 : List FrameData := (List.range 10).map (fun i => mkFrame (i + 1))

/-! ### Fallible pipeline: process_frame with the cv2 primitives'
assertion behavior

The source calls cv2.cvtColor (fire_detection.py lines 222-223) and,
through detect_motion, cv2.calcOpticalFlowFarneback (line 115) with no
guard and no exception handler, so the cv2.error those primitives raise
on malformed input propagates to process_frame's caller.  The variant
below models that documented behavior: cvtColor's CV_Assert on an empty
source, and Farneback's assertion that the two frames have equal size. -/

/-- A grayscale frame as produced by cv2.cvtColor, carrying its
dimensions (equal to the source frame's) and its abstract content. -/
structure GrayFrame where
  width : Nat
  height : Nat
  id : Nat
  deriving DecidableEq

/-- The cv2.error conditions process_frame can propagate: cvtColor's
empty-source assertion and calcOpticalFlowFarneback's equal-size
assertion. -/
inductive CvError where
  | emptySrcAssertion
  | flowSizeAssertion
  deriving DecidableEq

namespace Fallible

/-- DetectorState whose retained previous grayscale frame carries its
dimensions. -/
structure DetectorState where
  prev_gray : Option GrayFrame
  flicker_history : List ℚ
  consecutive_frames : Int
  deriving DecidableEq

/-- The fields as set by FireDetector.__init__. -/
def initState : DetectorState :=
  { prev_gray := none, flicker_history := [], consecutive_frames := 0 }

/-- cv2.cvtColor: raises cv2.error (CV_Assert on an empty source) for a
zero-sized frame, otherwise yields a frame of the same dimensions. -/
def cvtColor (f : FrameData) : Except CvError GrayFrame :=
  if f.width = 0 ∨ f.height = 0 then Except.error CvError.emptySrcAssertion
  else Except.ok { width := f.width, height := f.height, id := f.gray }

/-- FireDetector.detect_motion with the Farneback size assertion: when
a previous frame is retained and its dimensions differ from the current
frame's, the flow call raises cv2.error — before the line that replaces
prev_gray; otherwise as in the total model. -/
def detect_motion (s : DetectorState) (gray : GrayFrame)
    (fire_pixels motion_pixels : ℚ) : Except CvError (ℚ × DetectorState) :=
  match s.prev_gray with
  | none => Except.ok (0, { s with prev_gray := some gray })
  | some p =>
      if p.width = gray.width ∧ p.height = gray.height then
        Except.ok
          (if fire_pixels = 0 then 0 else motion_pixels / fire_pixels,
           { s with prev_gray := some gray })
      else Except.error CvError.flowSizeAssertion

/-- FireDetector.detect_flicker over this state (same body as the total
model; the flicker path raises nothing). -/
def detect_flicker (min_flicker_variance : ℚ) (s : DetectorState)
    (fire_area : ℚ) : Bool × DetectorState :=
  let hist := dequeAppend 10 s.flicker_history fire_area
  (if hist.length < 5 then false
   else decide (npVar hist / (npMean hist + 1) > min_flicker_variance),
   { s with flicker_history := hist })

/-- FireDetector.process_frame with the fallible primitives: the source
has no try/except, so a cv2.error raised by cvtColor or by the flow
call inside detect_motion propagates to the caller and no result record
is produced; on well-formed input the body is the one of the total
model. -/
def process_frame (cfg : Config) (s : DetectorState) (f : FrameData) :
    Except CvError (ProcessResult × DetectorState) :=
  match cvtColor f with
  | Except.error e => Except.error e
  | Except.ok gray =>
      match detect_motion s gray f.maskArea f.motionPixels with
      | Except.error e => Except.error e
      | Except.ok (motion_ratio, s1) =>
          let valid_contours := f.contours.filter cfg.shapeOk
          let fire_detected_this_frame := f.contours.any cfg.shapeOk
          let fl := detect_flicker cfg.min_flicker_variance s1 f.maskArea
          let has_flicker := fl.1
          let s2 := fl.2
          let cv :=
            if fire_detected_this_frame
                && decide (motion_ratio > cfg.min_motion_threshold)
                && has_flicker
            then s2.consecutive_frames + 1
            else max 0 (s2.consecutive_frames - 1)
          let s3 := { s2 with consecutive_frames := cv }
          Except.ok
            ({ fire_status := decide (cfg.required_detections ≤ cv)
               confidence := min 100 ((cv : ℚ) / (cfg.required_detections : ℚ) * 100)
               motion_ratio := motion_ratio
               has_flicker := has_flicker
               detections := valid_contours },
             s3)

end Fallible

instance (c : Contour) : Decidable (strictGates c) := by
  unfold strictGates; infer_instance

instance (c : Contour) : Decidable (advancedGates c) := by
  unfold advancedGates; infer_instance

section ConcreteEvaluation

attribute [local semireducible] Rat.add Rat.mul Rat.inv Rat.sub

/-! ### Helper lemmas -/

/-- The updated counter is either an increment or the floored decrement
of the incoming one. -/
lemma cv_step_cases (cfg : Config) (s : DetectorState) (f : FrameData) :
    (process_frame cfg s f).2.consecutive_frames = s.consecutive_frames + 1 ∨
    (process_frame cfg s f).2.consecutive_frames = max 0 (s.consecutive_frames - 1) := by
  unfold process_frame
  dsimp only
  split
  · exact Or.inl rfl
  · exact Or.inr rfl

/-- One frame cannot drive the counter negative. -/
lemma cv_step_nonneg (cfg : Config) (s : DetectorState) (f : FrameData)
    (h : 0 ≤ s.consecutive_frames) :
    0 ≤ (process_frame cfg s f).2.consecutive_frames := by
  rcases cv_step_cases cfg s f with hc | hc <;> rw [hc]
  · linarith
  · exact le_max_left 0 _

/-! ### Claim theorems -/

/-- Claim C1: on every processed frame the per-frame vote is the
conjunction (some contour accepted by the shape classifier) AND
(motion_ratio > min_motion_threshold) AND (flicker reported); a true
vote increments consecutive_frames by exactly 1, otherwise the counter
becomes max(0, counter - 1) and hence stays non-negative, and the alert
(fire_status) is true exactly when the updated counter is at least
required_detections. -/
theorem decision_vote_update (cfg : Config) (s : DetectorState) (f : FrameData) :
    ((process_frame cfg s f).2.consecutive_frames =
      if f.contours.any cfg.shapeOk
          && decide ((process_frame cfg s f).1.motion_ratio > cfg.min_motion_threshold)
          && (process_frame cfg s f).1.has_flicker
      then s.consecutive_frames + 1
      else max 0 (s.consecutive_frames - 1))
    ∧ (0 ≤ s.consecutive_frames → 0 ≤ (process_frame cfg s f).2.consecutive_frames)
    ∧ ((process_frame cfg s f).1.fire_status =
        decide (cfg.required_detections ≤ (process_frame cfg s f).2.consecutive_frames)) := by
  refine ⟨rfl, cv_step_nonneg cfg s f, rfl⟩

/-- Witness for C1 at a concrete input. -/
theorem decision_vote_update_witness :
    0 ≤ (process_frame strictCfg initState emptyFrame).2.consecutive_frames :=
  (decision_vote_update strictCfg initState emptyFrame).2.1 (by decide)

/-- Claim C3 counterexample: after the ten frames of framesC3 a fresh
strict detector's consecutive_frames is 6, strictly above
required_detections = 5, so the claimed invariant
consecutive_frames ≤ required_detections fails (the increment branch is
uncapped). -/
theorem consecutive_exceeds_required :
    (runDetector strictCfg framesC3).consecutive_frames = 6
    ∧ ¬ ((runDetector strictCfg framesC3).consecutive_frames
          ≤ strictCfg.required_detections) := by decide

/-- Claim C3 (amended): after every frame of every processed sequence
the counter satisfies 0 ≤ consecutive_frames; it may exceed
required_detections, and the alert comparison uses ≥. -/
theorem consecutive_nonneg (cfg : Config) (fs : List FrameData) :
    0 ≤ (runDetector cfg fs).consecutive_frames := by
  unfold runDetector
  have h : ∀ (gs : List FrameData) (s : DetectorState), 0 ≤ s.consecutive_frames →
      0 ≤ (gs.foldl (fun s f => (process_frame cfg s f).2) s).consecutive_frames := by
    intro gs
    induction gs with
    | nil => intro s hs; exact hs
    | cons f fs ih =>
        intro s hs
        rw [List.foldl_cons]
        exact ih _ (cv_step_nonneg cfg s f hs)
  exact h fs initState le_rfl

/-- Claim C7: the reported confidence is min(100, counter/required*100)
computed from the updated counter; as a function of the counter it is
monotone (for a positive required_detections) and never exceeds 100. -/
theorem confidence_formula_monotone (cfg : Config) (s : DetectorState) (f : FrameData) :
    ((process_frame cfg s f).1.confidence
        = confidenceOf cfg.required_detections (process_frame cfg s f).2.consecutive_frames)
    ∧ (∀ a b : Int, a ≤ b → 0 < cfg.required_detections →
        confidenceOf cfg.required_detections a ≤ confidenceOf cfg.required_detections b)
    ∧ (∀ a : Int, confidenceOf cfg.required_detections a ≤ 100) := by
  refine ⟨rfl, ?_, fun a => min_le_left _ _⟩
  intro a b hab hreq
  unfold confidenceOf
  have hq : (0:ℚ) < (cfg.required_detections : ℚ) := by exact_mod_cast hreq
  have h1 : (a : ℚ) / (cfg.required_detections : ℚ) ≤ (b : ℚ) / (cfg.required_detections : ℚ) :=
    (div_le_div_iff_of_pos_right hq).mpr (by exact_mod_cast hab)
  exact min_le_min le_rfl (mul_le_mul_of_nonneg_right h1 (by norm_num))

/-- Witness for C7 at concrete counters. -/
theorem confidence_formula_monotone_witness :
    confidenceOf strictCfg.required_detections 1 ≤ confidenceOf strictCfg.required_detections 2
    ∧ confidenceOf strictCfg.required_detections 7 ≤ 100 :=
  ⟨(confidence_formula_monotone strictCfg initState frameA).2.1 1 2 (by decide) (by decide),
   (confidence_formula_monotone strictCfg initState frameA).2.2 7⟩

/-- Claim C5: detect_motion is total — it always retains the current
grayscale frame, returns 0 on the very first call (no retained previous
frame), and returns 0 instead of dividing when the candidate mask has no
pixels; consequently the very first frame processed by a fresh detector
reports motion_ratio 0 and does not raise the alert. -/
theorem motion_total_first_frame :
    (∀ (s : DetectorState) (g : Nat) (fp mp : ℚ),
        (detect_motion s g fp mp).2.prev_gray = some g
        ∧ (s.prev_gray = none → (detect_motion s g fp mp).1 = 0)
        ∧ (fp = 0 → (detect_motion s g fp mp).1 = 0))
    ∧ (∀ f : FrameData,
        (process_frame strictCfg initState f).1.motion_ratio = 0
        ∧ (process_frame strictCfg initState f).1.fire_status = false) := by
  constructor
  · intro s g fp mp
    refine ⟨rfl, fun hn => ?_, fun hz => ?_⟩
    · unfold detect_motion
      rw [hn]
    · unfold detect_motion
      cases s.prev_gray with
      | none => rfl
      | some p => simp [hz]
  · intro f
    constructor
    · rfl
    · have hv : (decide ((0:ℚ) > strictCfg.min_motion_threshold)) = false := by decide
      show decide (strictCfg.required_detections ≤
          if f.contours.any strictCfg.shapeOk
              && decide ((0:ℚ) > strictCfg.min_motion_threshold)
              && (detect_flicker strictCfg.min_flicker_variance
                    ((detect_motion initState f.gray f.maskArea f.motionPixels).2)
                    f.maskArea).1
          then initState.consecutive_frames + 1
          else max 0 (initState.consecutive_frames - 1)) = false
      rw [hv, Bool.and_false, Bool.false_and]
      decide

/-- Witness for C5 at a concrete input. -/
theorem motion_total_first_frame_witness :
    (detect_motion initState 0 0 0).1 = 0
    ∧ (detect_motion initState 0 0 0).2.prev_gray = some 0 :=
  ⟨(motion_total_first_frame.1 initState 0 0 0).2.1 rfl,
   (motion_total_first_frame.1 initState 0 0 0).1⟩

/-- Claim C6: flicker is reported false whenever the history deque
(after the current sample is pushed) holds fewer than 5 samples,
regardless of its contents; once it holds at least 5 samples, flicker is
reported true iff variance(areas)/(mean(areas)+1) exceeds the configured
threshold.  Stated for every threshold, covering both detector
configurations. -/
theorem flicker_warmup_threshold (t : ℚ) (s : DetectorState) (a : ℚ) :
    ((detect_flicker t s a).2.flicker_history.length < 5 →
      (detect_flicker t s a).1 = false)
    ∧ (5 ≤ (detect_flicker t s a).2.flicker_history.length →
      ((detect_flicker t s a).1 = true ↔
        npVar (detect_flicker t s a).2.flicker_history /
          (npMean (detect_flicker t s a).2.flicker_history + 1) > t)) := by
  unfold detect_flicker
  dsimp only
  split_ifs with h
  · exact ⟨fun _ => rfl, fun hge => absurd hge (by omega)⟩
  · refine ⟨fun hlt => absurd hlt h, fun _ => ?_⟩
    exact decide_eq_true_iff

/-- Witness for C6: during warm-up (one sample) flicker is false even
though a single sample has zero variance ratio below no threshold; after
warm-up a high-variance window reports flicker. -/
theorem flicker_warmup_threshold_witness :
    (detect_flicker (2/25) initState 7).1 = false
    ∧ (detect_flicker (2/25)
        { prev_gray := none, flicker_history := [100, 200, 100, 200], consecutive_frames := 0 }
        100).1 = true :=
  ⟨(flicker_warmup_threshold (2/25) initState 7).1 (by decide),
   ((flicker_warmup_threshold (2/25)
      { prev_gray := none, flicker_history := [100, 200, 100, 200], consecutive_frames := 0 }
      100).2 (by decide)).mpr (by decide)⟩

/-- Claim C10: every process_frame call appends exactly one sample —
the current candidate mask's pixel count — to the bounded flicker FIFO,
unconditionally; hence from a fresh detector the FIFO length after a
sequence of frames is min(frames, 10), so warm-up (5 samples) completes
at the 5th processed frame regardless of frame content, and a
signal-free frame (maskArea 0) contributes a zero sample. -/
theorem flicker_append_every_frame :
    (∀ (cfg : Config) (s : DetectorState) (f : FrameData),
        (process_frame cfg s f).2.flicker_history
          = dequeAppend 10 s.flicker_history f.maskArea)
    ∧ (∀ (cfg : Config) (fs : List FrameData),
        (runDetector cfg fs).flicker_history.length = min fs.length 10) := by
  constructor
  · intro cfg s f
    rfl
  · intro cfg fs
    unfold runDetector
    have hlen : ∀ (xs : List ℚ) (x : ℚ),
        (dequeAppend 10 xs x).length = min (xs.length + 1) 10 := by
      intro xs x
      unfold dequeAppend
      dsimp only
      split_ifs with h <;>
        simp only [List.length_drop, List.length_append, List.length_singleton] at h ⊢ <;>
        omega
    have h : ∀ (gs : List FrameData) (s : DetectorState), s.flicker_history.length ≤ 10 →
        ((gs.foldl (fun s f => (process_frame cfg s f).2) s).flicker_history.length
          = min (s.flicker_history.length + gs.length) 10) := by
      intro gs
      induction gs with
      | nil => intro s hs; simp; omega
      | cons f fs ih =>
          intro s hs
          rw [List.foldl_cons]
          have hstep : ((process_frame cfg s f).2).flicker_history
              = dequeAppend 10 s.flicker_history f.maskArea := rfl
          have := ih ((process_frame cfg s f).2) (by rw [hstep, hlen]; omega)
          rw [this, hstep, hlen]
          simp only [List.length_cons]
          omega
    have := h fs initState (by simp [initState])
    simpa [initState] using this

/-- Claim C4: a zero-sized input frame makes process_frame surface
cv2.error from cvtColor's empty-source assertion to the caller, and a
non-empty frame whose dimensions differ from the previous call's (the
retained grayscale frame's) surfaces cv2.error from the Farneback
equal-size assertion; in both cases the call yields no result record at
all — in particular no silent zero-confidence record — since the source
installs no exception handler. -/
theorem process_frame_surfaces_errors :
    (∀ (cfg : Config) (s : Fallible.DetectorState) (f : FrameData),
        f.width = 0 ∨ f.height = 0 →
        Fallible.process_frame cfg s f = Except.error CvError.emptySrcAssertion)
    ∧ (∀ (cfg : Config) (s : Fallible.DetectorState) (f : FrameData) (p : GrayFrame),
        s.prev_gray = some p →
        ¬ (f.width = 0 ∨ f.height = 0) →
        ¬ (p.width = f.width ∧ p.height = f.height) →
        Fallible.process_frame cfg s f = Except.error CvError.flowSizeAssertion) := by
  constructor
  · intro cfg s f hf
    unfold Fallible.process_frame Fallible.cvtColor
    rw [if_pos hf]
  · intro cfg s f p hp hne hdiff
    unfold Fallible.process_frame Fallible.cvtColor
    rw [if_neg hne]
    unfold Fallible.detect_motion
    rw [hp]
    dsimp only
    rw [if_neg hdiff]

/-- Witness for C4 at the two failing inputs: a 0 by 0 frame on a fresh
detector, and a 320 by 240 frame on a detector retaining a 640 by 480
grayscale frame. -/
theorem process_frame_surfaces_errors_witness :
    Fallible.process_frame strictCfg Fallible.initState emptyFrame
        = Except.error CvError.emptySrcAssertion
    ∧ Fallible.process_frame strictCfg
        { prev_gray := some { width := 640, height := 480, id := 1 },
          flicker_history := [], consecutive_frames := 0 } frameB
        = Except.error CvError.flowSizeAssertion :=
  ⟨process_frame_surfaces_errors.1 strictCfg Fallible.initState emptyFrame (Or.inl rfl),
   process_frame_surfaces_errors.2 strictCfg
     { prev_gray := some { width := 640, height := 480, id := 1 },
       flicker_history := [], consecutive_frames := 0 } frameB
     { width := 640, height := 480, id := 1 } rfl (by decide) (by decide)⟩

/-- Claim C2 counterexample: the permissive classifier of
fire_detection_advanced.py accepts the fully convex contour cBad
(solidity exactly 1, far outside the solidity band [0.4, 0.85]), so the
claim that both configurations apply all four gates — in particular the
solidity gate — is false. -/
theorem shape_classifier_counterexample :
    Advanced.is_fire_like_shape cBad = true
    ∧ ¬ (2/5 ≤ solidity cBad ∧ solidity cBad ≤ 17/20) := by decide

/-- Claim C2 (amended): the strict classifier of fire_detection.py
accepts a contour iff all four geometric gates pass (area band,
circularity band with zero-perimeter guard, aspect-ratio band with
zero-width guard, solidity band with zero-hull guard); the permissive
classifier of fire_detection_advanced.py is a separate implementation
that accepts iff its three gates pass — area band, upper circularity
bound only and aspect-ratio band — with no lower circularity bound and
no solidity gate. -/
theorem shape_gates_iff :
    (∀ c : Contour, is_fire_like_shape c = true ↔ strictGates c)
    ∧ (∀ c : Contour, Advanced.is_fire_like_shape c = true ↔ advancedGates c) := by
  constructor
  · intro c
    unfold is_fire_like_shape strictGates
    constructor
    · intro h
      split_ifs at h with h1 h2 h3 h4 h5 h6 h7 h8 h9 <;>
        try exact Bool.noConfusion h
      push_neg at h1 h3 h4 h6 h8 h9
      exact ⟨h1, ⟨h2, h4, h3⟩, ⟨h5, h6.2, h6.1⟩, ⟨h7, h9, h8⟩⟩
    · intro hG
      obtain ⟨⟨a1, a2⟩, ⟨p0, c1, c2⟩, ⟨w0, r1, r2⟩, ⟨u0, d1, d2⟩⟩ := hG
      have n1 : ¬(c.area < 800 ∨ c.area > 80000) := by rintro (h | h) <;> linarith
      have n3 : ¬(circularity c > 7/10) := not_lt.mpr c2
      have n4 : ¬(circularity c < 1/4) := not_lt.mpr c1
      have n6 : ¬(aspect_ratio c > 9/5 ∨ aspect_ratio c < 3/5) := by
        rintro (h | h) <;> linarith
      have n8 : ¬(solidity c > 17/20) := not_lt.mpr d2
      have n9 : ¬(solidity c < 2/5) := not_lt.mpr d1
      rw [if_neg n1, if_neg p0, if_neg n3, if_neg n4, if_neg w0, if_neg n6,
        if_neg u0, if_neg n8, if_neg n9]
  · intro c
    unfold Advanced.is_fire_like_shape advancedGates
    constructor
    · intro h
      split_ifs at h with h1 h2 h3 h4 h5 <;>
        try exact Bool.noConfusion h
      push_neg at h1 h3 h5
      exact ⟨h1, ⟨h2, h3⟩, ⟨h4, h5.2, h5.1⟩⟩
    · intro hG
      obtain ⟨⟨a1, a2⟩, ⟨p0, c1⟩, ⟨w0, r1, r2⟩⟩ := hG
      have n1 : ¬(c.area < 500 ∨ c.area > 100000) := by rintro (h | h) <;> linarith
      have n3 : ¬(circularity c > 4/5) := not_lt.mpr c1
      have n5 : ¬(aspect_ratio c > 3 ∨ aspect_ratio c < 3/10) := by
        rintro (h | h) <;> linarith
      rw [if_neg n1, if_neg p0, if_neg n3, if_neg w0, if_neg n5]

/-- Witness for C2's amended iff: a contour passing every gate of the
respective classifier is accepted by it. -/
theorem shape_gates_iff_witness :
    is_fire_like_shape cGood = true ∧ Advanced.is_fire_like_shape cGood = true :=
  ⟨(shape_gates_iff.1 cGood).mpr (by decide),
   (shape_gates_iff.2 cGood).mpr (by decide)⟩

/-- Subtracting two exclusion masks from a candidate mask commutes. -/
lemma subtractMask_comm : ∀ (x a b : List Bool),
    subtractMask (subtractMask x a) b = subtractMask (subtractMask x b) a := by
  intro x
  induction x with
  | nil => intro a b; rfl
  | cons p ps ih =>
      intro a b
      cases a with
      | nil => cases b with
        | nil => rfl
        | cons qb bs => rfl
      | cons qa as =>
          cases b with
          | nil => rfl
          | cons qb bs =>
              show ((p && !qa) && !qb) :: subtractMask (subtractMask ps as) bs
                = ((p && !qb) && !qa) :: subtractMask (subtractMask ps bs) as
              rw [ih as bs]
              congr 1
              cases p <;> cases qa <;> cases qb <;> rfl

/-- Claim C8: subtracting the skin, tomato-red and cloth-red exclusion
masks from the candidate mask yields the same mask under every ordering
of the three subtractions (the source order being skin, tomato, cloth). -/
theorem exclusion_order_invariant (hsv : List HSVPixel) :
    (subtractMask (subtractMask (subtractMask (fire_candidate hsv) (skin_mask hsv))
        (tomato_mask hsv)) (cloth_mask hsv) = detect_fire_color_premorph hsv)
    ∧ (subtractMask (subtractMask (subtractMask (fire_candidate hsv) (skin_mask hsv))
        (cloth_mask hsv)) (tomato_mask hsv) = detect_fire_color_premorph hsv)
    ∧ (subtractMask (subtractMask (subtractMask (fire_candidate hsv) (tomato_mask hsv))
        (skin_mask hsv)) (cloth_mask hsv) = detect_fire_color_premorph hsv)
    ∧ (subtractMask (subtractMask (subtractMask (fire_candidate hsv) (tomato_mask hsv))
        (cloth_mask hsv)) (skin_mask hsv) = detect_fire_color_premorph hsv)
    ∧ (subtractMask (subtractMask (subtractMask (fire_candidate hsv) (cloth_mask hsv))
        (skin_mask hsv)) (tomato_mask hsv) = detect_fire_color_premorph hsv)
    ∧ (subtractMask (subtractMask (subtractMask (fire_candidate hsv) (cloth_mask hsv))
        (tomato_mask hsv)) (skin_mask hsv) = detect_fire_color_premorph hsv) := by
  unfold detect_fire_color_premorph
  refine ⟨rfl, subtractMask_comm _ _ _, ?_, ?_, ?_, ?_⟩
  · rw [subtractMask_comm (fire_candidate hsv) (tomato_mask hsv) (skin_mask hsv)]
  · rw [subtractMask_comm (subtractMask (fire_candidate hsv) (tomato_mask hsv))
        (cloth_mask hsv) (skin_mask hsv),
      subtractMask_comm (fire_candidate hsv) (tomato_mask hsv) (skin_mask hsv)]
  · rw [subtractMask_comm (fire_candidate hsv) (cloth_mask hsv) (skin_mask hsv),
      subtractMask_comm (subtractMask (fire_candidate hsv) (skin_mask hsv))
        (cloth_mask hsv) (tomato_mask hsv)]
  · rw [subtractMask_comm (subtractMask (fire_candidate hsv) (cloth_mask hsv))
        (tomato_mask hsv) (skin_mask hsv),
      subtractMask_comm (fire_candidate hsv) (cloth_mask hsv) (skin_mask hsv),
      subtractMask_comm (subtractMask (fire_candidate hsv) (skin_mask hsv))
        (cloth_mask hsv) (tomato_mask hsv)]

/-- Claim C9: importing src/fire_detection_advanced.py can never
succeed, whatever modules are available; and whenever all its imports
resolve, the failure is precisely the NameError on FireDetector raised
by the classDef of FireDetectorWithAlert at line 14, which names the
base class FireDetector before line 35 defines it — so the audio-alert
detector is never constructible. -/
theorem advanced_module_never_loads (canImport : String → Bool) :
    (∀ env : List String, loadAdvancedModule canImport ≠ Except.ok env)
    ∧ ((∀ m : String, canImport m = true) →
        loadAdvancedModule canImport = Except.error (PyError.nameError "FireDetector")) := by
  constructor
  · intro env
    cases h1 : canImport "cv2" <;> cases h2 : canImport "numpy" <;>
      cases h3 : canImport "collections" <;> cases h4 : canImport "time" <;>
      cases h5 : canImport "datetime" <;> cases h6 : canImport "winsound" <;>
      simp [loadAdvancedModule, advancedModuleStmts, runModule, execStmt, firstMissing,
        h1, h2, h3, h4, h5, h6]
  · intro hall
    simp [loadAdvancedModule, advancedModuleStmts, runModule, execStmt, firstMissing,
      hall "cv2", hall "numpy", hall "collections", hall "time", hall "datetime",
      hall "winsound"]

/-- Witness for C9: with every module importable, loading the module is
exactly the NameError on FireDetector. -/
theorem advanced_module_never_loads_witness :
    loadAdvancedModule (fun _ => true) = Except.error (PyError.nameError "FireDetector") :=
  (advanced_module_never_loads (fun _ => true)).2 (fun _ => rfl)

end ConcreteEvaluation

end FireDetection
